import Mathlib

/-!
Verification development for the IntesisBox WMP protocol client
(`custom_components/intesisbox/intesisbox.py`).

The Python client is shallowly embedded: the device-state cache, the
line parser (`data_received` / `_parse_id_received` /
`_parse_change_received` / `_parse_limits_received`), the connection
manager (`connect`), the command sender (`set_temperature`,
`_set_value`, `set_mode`) and the callback fan-out are translated to
executable Lean functions.  Python exceptions escaping a function are
modelled with an explicit success flag or `Option`; Python `float`
arithmetic on tenths-of-degree values is exact here, so it is modelled
with `ℚ`.
-/

namespace IntesisBox

/-! ## Python string primitives

The client only ever splits on single-character separators (`:` and
`,`), so the embeddings below implement CPython `str.split(sep)`,
`str.split(sep, 1)`, `str.splitlines()` (for the `\r` / `\n` / `\r\n`
terminators that occur in this ASCII protocol) and `s[1:-1]` over the
character list of a `String`. -/

/-- CPython `str.split(sep)` on a character list: always returns at
least one (possibly empty) field. -/
def splitChars (sep : Char) : List Char → List (List Char)
  | [] => [[]]
  | c :: rest =>
    let r := splitChars sep rest
    if c = sep then [] :: r
    else
      match r with
      | [] => [[c]]
      | l :: ls => (c :: l) :: ls

/-- CPython `str.split(sep)`. -/
def pySplit (s : String) (sep : Char) : List String :=
  (splitChars sep s.data).map (fun l => ⟨l⟩)

/-- Helper for `str.split(sep, 1)`: the text before the first `sep`,
and the remainder after it when `sep` occurs. -/
def splitOnceChars (sep : Char) : List Char → List Char × Option (List Char)
  | [] => ([], none)
  | c :: rest =>
    if c = sep then ([], some rest)
    else
      let r := splitOnceChars sep rest
      (c :: r.1, r.2)

/-- CPython `str.split(sep, 1)`: a one- or two-element list. -/
def pySplit1 (s : String) (sep : Char) : List String :=
  match splitOnceChars sep s.data with
  | (l, none) => [⟨l⟩]
  | (l, some r) => [⟨l⟩, ⟨r⟩]

/-- CPython `str.splitlines()` restricted to the `\r`, `\n` and `\r\n`
terminators used by the WMP wire protocol: a trailing terminator does
not produce a final empty line.  `prevCR` records that the previous
character was a carriage return which already closed a line, so that
the line feed of a `\r\n` pair is consumed silently. -/
def splitlinesAux (prevCR : Bool) (acc : List Char) : List Char → List (List Char)
  | [] => if acc = [] then [] else [acc.reverse]
  | c :: rest =>
    if c = '\n' then
      if prevCR then splitlinesAux false acc rest
      else acc.reverse :: splitlinesAux false [] rest
    else if c = '\r' then acc.reverse :: splitlinesAux true [] rest
    else splitlinesAux false (c :: acc) rest

/-- CPython `str.splitlines()`. -/
def pySplitlines (s : String) : List String :=
  (splitlinesAux false [] s.data).map (fun l => ⟨l⟩)

/-- CPython `s[1:-1]`, the bracket-stripping slice used on LIMITS
payloads. -/
def pyStripEnds (s : String) : String := ⟨(s.data.drop 1).dropLast⟩

/-- Decimal digit value of a character, if it is a digit. -/
def digitVal (c : Char) : Option Nat :=
  if '0' ≤ c ∧ c ≤ '9' then some (c.toNat - '0'.toNat) else none

/-- Accumulate a decimal numeral; `none` on any non-digit. -/
def natOfDigitsAux (acc : Nat) : List Char → Option Nat
  | [] => some acc
  | c :: rest =>
    match digitVal c with
    | some d => natOfDigitsAux (acc * 10 + d) rest
    | none => none

/-- Python `int(s)` on the plain decimal numerals (optionally
`-`-signed) that occur on the wire; `none` models the `ValueError`
that `int` raises on anything else. -/
def pyInt (s : String) : Option Int :=
  match s.data with
  | [] => none
  | '-' :: rest =>
    if rest = [] then none
    else (natOfDigitsAux 0 rest).map (fun n => -(n : Int))
  | l => (natOfDigitsAux 0 l).map (fun n => (n : Int))

/-- Python `int(q)` for a float/rational: truncation toward zero. -/
def pyTrunc (q : ℚ) : Int :=
  if q.num < 0 then -(((-q.num).toNat / q.den : Nat) : Int)
  else ((q.num.toNat / q.den : Nat) : Int)

/-! ## Python dict primitives

`self._device` is a `dict[str, str | None]`, embedded as an
association list: `dictSet` overwrites in place or appends, `dictGet`
is `dict.get` (returning `none` when the key is absent, `some v` when
present — where `v : Option String` is the stored value, possibly the
stored Python `None`). -/

def dictSet (d : List (String × Option String)) (k : String) (v : Option String) :
    List (String × Option String) :=
  match d with
  | [] => [(k, v)]
  | (k', v') :: rest => if k' = k then (k, v) :: rest else (k', v') :: dictSet rest k v

def dictGet (d : List (String × Option String)) (k : String) : Option (Option String) :=
  match d with
  | [] => none
  | (k', v') :: rest => if k' = k then some v' else dictGet rest k

/-! ## Module constants (from the source head) -/

def MODES : List String := ["AUTO", "DRY", "FAN", "COOL", "HEAT"]

def NULL_VALUES : List String := ["-32768", "32768"]

/-- Connection status constants `API_DISCONNECTED` / `API_CONNECTING`
/ `API_AUTHENTICATED`. -/
inductive ConnStatus where
  | disconnected
  | connecting
  | authenticated
deriving DecidableEq, BEq, Repr

/-! ## Client state

The mutable fields of `IntesisBox` that the embedded operations read
or write.  `tasks` records, in order, the background coroutines handed
to `ensure_background_task` while processing received data (the
task-set bookkeeping itself is irrelevant to the claims; what matters
is which loops ever get scheduled). -/

structure BoxState where
  device : List (String × Option String)
  connectionStatus : ConnStatus
  model : Option String
  mac : Option String
  firmversion : Option String
  rssi : Option String
  operation_list : List String
  fan_speed_list : List String
  vertical_vane_list : List String
  horizontal_vane_list : List String
  setpoint_minimum : Option ℚ
  setpoint_maximum : Option ℚ
  tasks : List String
deriving DecidableEq, Repr

/-- The state built by `IntesisBox.__init__`. -/
def initialState : BoxState where
  device := []
  connectionStatus := .disconnected
  model := none
  mac := none
  firmversion := none
  rssi := none
  operation_list := []
  fan_speed_list := []
  vertical_vane_list := []
  horizontal_vane_list := []
  setpoint_minimum := none
  setpoint_maximum := none
  tasks := []

/-! ## Response parsing (`_parse_id_received`, `_parse_change_received`,
`_parse_limits_received`, `data_received`) -/

/-- Embeds `_parse_id_received`: `ID:Model,MAC,IP,Protocol,Version,RSSI`.
Fields are only stored when at least 6 comma-separated fields are
present; otherwise the method silently does nothing. -/
def parse_id_received (st : BoxState) (args : String) : BoxState :=
  let info := pySplit args ','
  if h : 6 ≤ info.length then
    { st with
        model := some (info.get ⟨0, by omega⟩)
        mac := some (info.get ⟨1, by omega⟩)
        firmversion := some (info.get ⟨4, by omega⟩)
        rssi := some (info.get ⟨5, by omega⟩) }
  else st

/-- Embeds `_parse_change_received`: `FUNC,VALUE`; a sentinel `VALUE` is
stored as Python `None`.  When the argument string contains no comma,
`args.split(",")[1]` raises `IndexError` before any mutation — that
exception is modelled by `none`. -/
def parse_change_received (st : BoxState) (args : String) : Option BoxState :=
  match pySplit args ',' with
  | f :: v :: _ =>
    some { st with
             device := dictSet st.device f (if v ∈ NULL_VALUES then none else some v) }
  | _ => none

/-- The `elif` chain on the non-setpoint LIMITS functions. -/
def limitsOther (st : BoxState) (f : String) (values : List String) : BoxState :=
  if f = "FANSP" then { st with fan_speed_list := values }
  else if f = "MODE" then { st with operation_list := values }
  else if f = "VANEUD" then { st with vertical_vane_list := values }
  else if f = "VANELR" then { st with horizontal_vane_list := values }
  else st

/-- Embeds `_parse_limits_received`: `FUNC,[v1,v2,...]`.  Returns the updated
state and a success flag: on the setpoint branch `int(values[0])` /
`int(values[1])` can raise `ValueError` (flag `false`), and the raise
on the second value happens after the minimum was already assigned. -/
def parse_limits_received (st : BoxState) (args : String) : BoxState × Bool :=
  match pySplit1 args ',' with
  | c :: rest :: _ =>
    let values := pySplit (pyStripEnds rest) ','
    if c = "SETPTEMP" ∧ values.length = 2 then
      match values with
      | a :: b :: _ =>
        match pyInt a with
        | none => (st, false)
        | some x =>
          match pyInt b with
          | none => ({ st with setpoint_minimum := some ((x : ℚ) / 10) }, false)
          | some y =>
            ({ st with
                 setpoint_minimum := some ((x : ℚ) / 10)
                 setpoint_maximum := some ((y : ℚ) / 10) }, true)
      | _ => (st, true)
    else (limitsOther st c values, true)
  | _ => (st, true)

/-- One iteration of the `for line in linesReceived` body of
`data_received`.  Result: the state after the line, whether this line
set `statusChanged`, and whether it completed without raising. -/
def processLine (st : BoxState) (line : String) : BoxState × Bool × Bool :=
  match pySplit1 line ':' with
  | cmd :: args :: _ =>
    if cmd = "ID" then
      let st1 := parse_id_received st args
      ({ st1 with
           connectionStatus := .authenticated
           tasks := st1.tasks ++ ["poll_status", "poll_ambtemp"] }, false, true)
    else if cmd = "CHN,1" then
      match parse_change_received st args with
      | some st1 => (st1, true, true)
      | none => (st, false, false)
    else if cmd = "LIMITS" then
      match parse_limits_received st args with
      | (st1, true) => (st1, true, true)
      | (st1, false) => (st1, false, false)
    else (st, false, true)
  | _ => (st, false, true)

/-- The `for` loop of `data_received`, threading `statusChanged`.  An
exception in a line's handler aborts the remaining lines of the chunk
(the partially mutated state survives, the loop does not continue). -/
def processLinesAux (st : BoxState) (changed : Bool) : List String → BoxState × Bool × Bool
  | [] => (st, changed, true)
  | line :: rest =>
    match processLine st line with
    | (st1, c, true) => processLinesAux st1 (changed || c) rest
    | (st1, _, false) => (st1, changed, false)

/-- Embeds `data_received`: splits the chunk into lines, processes each, and
fires the update callback once when `statusChanged` ended up true.
Result: new state, number of update-callback fan-outs fired for this
chunk, and whether processing completed without raising. -/
def data_received (st : BoxState) (chunk : String) : BoxState × Nat × Bool :=
  match processLinesAux st false (pySplitlines chunk) with
  | (st1, changed, true) => (st1, if changed then 1 else 0, true)
  | (st1, _, false) => (st1, 0, false)

/-- A sequence of received chunks, processed in order. -/
def processChunks (st : BoxState) (chunks : List String) : BoxState :=
  chunks.foldl (fun s c => (data_received s c).1) st

/-! ## Accessor properties -/

/-- Reading `self._device.get(key)`, flattened: absent key and stored `None`
both read back as `none`, exactly as the Python properties observe. -/
def stringAccessor (st : BoxState) (key : String) : Option String :=
  Option.join (dictGet st.device key)

def mode (st : BoxState) : Option String := stringAccessor st "MODE"

def fan_speed (st : BoxState) : Option String := stringAccessor st "FANSP"

def vertical_swing (st : BoxState) : Option String := stringAccessor st "VANEUD"

def horizontal_swing (st : BoxState) : Option String := stringAccessor st "VANELR"

/-- Embeds `is_on`: `self._device.get(FUNCTION_ONOFF) == POWER_ON`. -/
def is_on (st : BoxState) : Bool := stringAccessor st "ONOFF" == some "ON"

/-- The shared shape of the `setpoint` and `ambient_temperature`
properties: `(int(v) / 10) if v else None`.  Python truthiness makes
the empty string read as `None`; a non-numeric stored string would
raise in `int` (never reachable from sentinel-filtered wire values),
modelled by `none` via `Option.map`. -/
def tenthsAccessor (st : BoxState) (key : String) : Option ℚ :=
  match stringAccessor st key with
  | none => none
  | some s => if s = "" then none else (pyInt s).map (fun n => (n : ℚ) / 10)

def setpoint (st : BoxState) : Option ℚ := tenthsAccessor st "SETPTEMP"

def ambient_temperature (st : BoxState) : Option ℚ := tenthsAccessor st "AMBTEMP"

def is_connected (st : BoxState) : Bool := st.connectionStatus == .authenticated

/-! ## Command sender -/

/-- Embeds `_set_value`: the wire command `SET,1:<uid>,<value>`. -/
def set_value_cmd (uid value : String) : String :=
  "SET,1:" ++ uid ++ "," ++ value

/-- Embeds `set_temperature`: `int(setpoint * 10)` serialized onto the
wire. -/
def set_temperature_cmd (setpoint : ℚ) : String :=
  set_value_cmd "SETPTEMP" (toString (pyTrunc (setpoint * 10)))

def set_power_on_cmd : String := set_value_cmd "ONOFF" "ON"

def get_mode_cmd : String := "GET,1:MODE"

/-- The confirmation loop of `set_mode` plus the `while/else` clause
that follows it.  `o j` is the cached mode (`self.mode`) the loop
observes at its `j`-th condition check, `j` polls having been issued
so far — the cache is mutated concurrently by `data_received` while
`_writeasync` sleeps, so it is an oracle here.  Mirrors
`while self.mode != mode and retry > 0` (short-circuit: the mode test
is evaluated first) followed by `if retry != 0: set_power_on()`.
Returns the commands written after the initial mode SET. -/
def mode_loop (m : String) (o : Nat → Option String) (j retry : Nat) : List String :=
  if o j = some m then
    if retry ≠ 0 then [set_power_on_cmd] else []
  else
    match retry with
    | 0 => []
    | Nat.succ r => get_mode_cmd :: mode_loop m o (j + 1) r

/-- Embeds `set_mode(mode)`: the full command trace it writes, given the
power state at entry and the oracle of cached-mode observations.  The
initial SET is only sent for a recognized mode, but the confirmation
loop runs whenever the unit is off (as in the source, where the
`if not self.is_on` block is not nested under `if mode in MODES`). -/
def set_mode_cmds (m : String) (isOn : Bool) (o : Nat → Option String) : List String :=
  (if m ∈ MODES then [set_value_cmd "MODE" m] else []) ++
    (if isOn then [] else mode_loop m o 0 30)

/-! ## Connection manager -/

/-- What one `connect()` call does, as a function of the current
status, whether ip/port are configured, and the transport
(`none` = `self._transport` is still `None`, `some closing` = a
transport whose `is_closing()` returns `closing`). -/
structure ConnectResult where
  status : ConnStatus
  /-- Counts `create_connection` coroutines scheduled by this call: each
  successful open runs `connection_made`, which is the only place the
  startup query task `query_initial_state` is ever scheduled. -/
  socketOpens : Nat
  /-- background coroutines handed to `ensure_background_task` by this
  call itself. -/
  tasksScheduled : List String
  transportClosed : Bool
  notified : Bool
  /-- the `Connecting` branch dereferences `self._transport` without a
  guard; with no transport yet this is an `AttributeError`. -/
  raised : Bool
deriving DecidableEq, Repr

def connect (status : ConnStatus) (hasIpPort : Bool) (transport : Option Bool) :
    ConnectResult :=
  match status with
  | .disconnected =>
    if hasIpPort then
      { status := .connecting, socketOpens := 1,
        tasksScheduled := ["create_connection"],
        transportClosed := false, notified := false, raised := false }
    else
      { status := .disconnected, socketOpens := 0, tasksScheduled := [],
        transportClosed := false, notified := false, raised := false }
  | .connecting =>
    match transport with
    | none =>
      { status := .connecting, socketOpens := 0, tasksScheduled := [],
        transportClosed := false, notified := false, raised := true }
    | some closing =>
      if closing then
        { status := .disconnected, socketOpens := 0, tasksScheduled := [],
          transportClosed := true, notified := true, raised := false }
      else
        { status := .connecting, socketOpens := 0, tasksScheduled := [],
          transportClosed := false, notified := false, raised := false }
  | .authenticated =>
    { status := .authenticated, socketOpens := 0, tasksScheduled := [],
      transportClosed := false, notified := false, raised := false }

/-- Embeds `query_initial_state`: the startup query sequence written (with a
1 s pause after each) once a new connection is made. -/
def query_initial_state_cmds : List String :=
  ["ID", "LIMITS:SETPTEMP", "LIMITS:FANSP", "LIMITS:MODE", "LIMITS:VANEUD", "LIMITS:VANELR"]

/-! ## Subscriber registry fan-out -/

/-- Embeds `_send_update_callback` / `_send_error_callback`: a plain
`for callback in callbacks: callback(...)` loop.  Each registered
callback is abstracted to whether invoking it raises.  Returns the
registration indices actually invoked and whether the fan-out
completed without an exception escaping to its caller. -/
def fanout (cbs : List Bool) (i : Nat) : List Nat × Bool :=
  match cbs with
  | [] => ([], true)
  | raises :: rest =>
    if raises then ([i], false)
    else
      let r := fanout rest (i + 1)
      (i :: r.1, r.2)

def send_update_callback (cbs : List Bool) : List Nat × Bool := fanout cbs 0

/-! ## Derived notions used by the claims -/

/-- Number of `set_power_on()` commands in a command trace. -/
def powerOnCount (cmds : List String) : Nat := cmds.count set_power_on_cmd

/-- Whether the cached mode equals `m` at one of the checks the
confirmation loop can perform (checks `0..bound`, one before each of
the `bound` polls and one after the last). -/
def confirmedWithin (m : String) (o : Nat → Option String) (bound : Nat) : Bool :=
  (List.range (bound + 1)).any (fun j => o j == some m)

/-- Claim C1 as stated, at a given requested mode and oracle of
cached-mode observations, with the unit off: one `set_power_on` when
the cache comes to reflect `m` within the 30-poll retry loop, none
when the bound is exhausted with the cache never reflecting `m`. -/
def modeClaim (m : String) (o : Nat → Option String) : Prop :=
  (confirmedWithin m o 30 = true → powerOnCount (set_mode_cmds m false o) = 1) ∧
    (confirmedWithin m o 30 = false → powerOnCount (set_mode_cmds m false o) = 0)

/-- An oracle under which the cached mode first matches only at the
check following the 30th poll. -/
def lateConfirmOracle : Nat → Option String :=
  fun j => if j = 30 then some "COOL" else some "HEAT"

/-- A line whose command token (text before the first colon, with an
argument part present) is `CHN,1` or `LIMITS` — the lines that set
`statusChanged`. -/
def isUpdateLine (line : String) : Bool :=
  match pySplit1 line ':' with
  | c :: _ :: _ => c == "CHN,1" || c == "LIMITS"
  | _ => false

/-- Claim C7 as stated, at a given start state and chunk: one update
fan-out when the chunk holds at least one CHN/LIMITS line, zero
otherwise. -/
def chunkClaim (st : BoxState) (chunk : String) : Prop :=
  (data_received st chunk).2.1 = if (pySplitlines chunk).any isUpdateLine then 1 else 0

/-- A well-formed power update followed by a `CHN,1` line whose
argument list has no comma (C7's counterexample chunk). -/
def malformedChunk : String := "CHN,1:ONOFF,ON\r\nCHN,1:MODE"

/-- A `CHN,1` line with no comma in its argument, followed by a
well-formed power update (C3's failing input). -/
def malformedFirstChunk : String := "CHN,1:MODE\r\nCHN,1:ONOFF,ON"

/-- A full `ID` response as in the spec's end-to-end scenario. -/
def idChunk : String := "ID:IS-IR-WMP-1,001DC9A2C911,192.168.100.246,ASCII,v0.0.1,-44\r\n"

/-! # Theorems

One theorem (plus witness / counterexample where required) per claim,
with shared helper lemmas in between. -/

/-- Claim C2 (code bug): the `ambient_temperature` property applies no
two's-complement reinterpretation.  After receiving
`CHN,1:AMBTEMP,65436` the accessor returns `6543.6`, which differs
from the `(65436 - 2^16)/10 = -10.0` the claim requires for raw
values ≥ 2^15. -/
theorem ambient_temperature_ignores_twos_complement :
    ambient_temperature (data_received initialState "CHN,1:AMBTEMP,65436\r\n").1
      = some ((65436 : ℚ) / 10) ∧
    ((65436 : ℚ) / 10) ≠ (((65436 : ℚ) - 2 ^ 16) / 10) := by
  constructor
  · have ha : stringAccessor (data_received initialState "CHN,1:AMBTEMP,65436\r\n").1 "AMBTEMP"
        = some "65436" := by decide
    have hb : pyInt "65436" = some 65436 := by decide
    simp [ambient_temperature, tenthsAccessor, ha, hb]
  · norm_num

/-- Claim C3 (code bug): a `CHN,1` line whose argument list has no comma
raises (`args.split(",")[1]` — `IndexError`) out of the receive path,
so the rest of the chunk is never processed: after
`malformedFirstChunk` the well-formed power update on the second line
is lost and the cache holds neither key.  By contrast an unrecognized
command token is dropped and processing does continue. -/
theorem malformed_chn_line_raises_and_aborts_chunk :
    ((data_received initialState malformedFirstChunk).2.2 = false ∧
     dictGet (data_received initialState malformedFirstChunk).1.device "ONOFF" = none ∧
     dictGet (data_received initialState malformedFirstChunk).1.device "MODE" = none) ∧
    ((data_received initialState "BOGUS:stuff\r\nCHN,1:ONOFF,ON\r\n").2.2 = true ∧
     is_on (data_received initialState "BOGUS:stuff\r\nCHN,1:ONOFF,ON\r\n").1 = true) := by
  decide

/-- Claim C4 (code bug): on the `Authenticated` transition triggered by
an `ID` response, exactly two background loops are scheduled —
`poll_status` (the 5-minute full poll) and `poll_ambtemp` (the
10-second ambient poll).  The `keep_alive` PING loop, although
defined, is never handed to `ensure_background_task` anywhere in the
client, so it is not among the started tasks. -/
theorem keep_alive_not_started_on_authentication :
    (data_received initialState idChunk).1.connectionStatus = .authenticated ∧
    (data_received initialState idChunk).1.tasks = ["poll_status", "poll_ambtemp"] ∧
    "keep_alive" ∉ (data_received initialState idChunk).1.tasks := by
  decide

/-- Claim C5 (code bug): the callback fan-out is a bare `for` loop.
With two registered callbacks of which the first raises, only index 0
is invoked, index 1 is never notified, and the exception escapes to
the caller of the fan-out (completion flag `false`). -/
theorem failing_callback_stops_fanout :
    send_update_callback [true, false] = ([0], false) ∧
    1 ∉ (send_update_callback [true, false]).1 := by
  decide

/-- Claim C8 (confirmed): `set_temperature(21.0)` serializes to
`SET,1:SETPTEMP,210`, and a subsequent `CHN,1:SETPTEMP,210` makes the
setpoint accessor return `21.0`. -/
theorem setpoint_roundtrip :
    set_temperature_cmd 21 = "SET,1:SETPTEMP,210" ∧
    setpoint (data_received initialState "CHN,1:SETPTEMP,210\r\n").1 = some 21 := by
  constructor
  · have h : (21 : ℚ) * 10 = 210 := by norm_num
    rw [set_temperature_cmd, h]
    decide
  · have ha : stringAccessor (data_received initialState "CHN,1:SETPTEMP,210\r\n").1 "SETPTEMP"
        = some "210" := by decide
    have hb : pyInt "210" = some 210 := by decide
    simp [setpoint, tenthsAccessor, ha, hb]
    norm_num

/-- Claim C1 (counterexample): under `lateConfirmOracle` the cached mode
first equals the requested mode `COOL` at the check following the
30th poll — still a check the retry loop performs, so the cache does
come to reflect the mode within the bounded loop — yet `set_mode`
gives up (`retry` is 0 in the `while/else` clause) and issues no
`set_power_on()`, contradicting the claim's `exactly once`. -/
theorem set_mode_claim_counterexample : ¬ modeClaim "COOL" lateConfirmOracle := by
  unfold modeClaim
  decide

/-- Claim C7 (counterexample): `malformedChunk` contains a line that is
a CHN update (its first line, which really is processed and stored),
but the `IndexError` raised by its second line aborts `data_received`
before the end-of-chunk notification, so zero update fan-outs fire
where the claim requires exactly one. -/
theorem chunk_notification_counterexample : ¬ chunkClaim initialState malformedChunk := by
  unfold chunkClaim
  decide

/-- Helper: when the cached mode first matches at check `j0 ≤ 29`, the
confirmation loop entered at check `j` (with `30 - j` retries left)
polls `j0 - j` more times and then powers on. -/
theorem mode_loop_confirm (m : String) (o : Nat → Option String) (j0 : Nat)
    (hconf : o j0 = some m) (hfirst : ∀ i, i < j0 → o i ≠ some m) :
    ∀ r j, j + r = 30 → j ≤ j0 → j0 ≤ 29 →
      mode_loop m o j r = List.replicate (j0 - j) get_mode_cmd ++ [set_power_on_cmd] := by
  intro r
  induction r with
  | zero => intro j hsum hle hj0; omega
  | succ r ih =>
    intro j hsum hle hj0
    rcases eq_or_lt_of_le hle with heq | hlt
    · subst heq
      rw [mode_loop.eq_def, if_pos hconf]
      simp
    · have hne : o j ≠ some m := hfirst j hlt
      rw [mode_loop.eq_def, if_neg hne]
      show get_mode_cmd :: mode_loop m o (j + 1) r
          = List.replicate (j0 - j) get_mode_cmd ++ [set_power_on_cmd]
      rw [ih (j + 1) (by omega) (by omega) hj0]
      have h3 : j0 - j = (j0 - (j + 1)) + 1 := by omega
      rw [h3, List.replicate_succ]
      simp

/-- Helper: when the cached mode matches at none of the checks `0..29`,
the loop issues all its remaining polls and the `while/else` clause
takes the give-up branch (no power-on). -/
theorem mode_loop_exhaust (m : String) (o : Nat → Option String)
    (h : ∀ i, i ≤ 29 → o i ≠ some m) :
    ∀ r j, j + r = 30 → mode_loop m o j r = List.replicate r get_mode_cmd := by
  intro r
  induction r with
  | zero =>
    intro j hsum
    rw [mode_loop.eq_def]
    simp
  | succ r ih =>
    intro j hsum
    have hne : o j ≠ some m := h j (by omega)
    rw [mode_loop.eq_def, if_neg hne]
    show get_mode_cmd :: mode_loop m o (j + 1) r = List.replicate (r + 1) get_mode_cmd
    rw [ih (j + 1) (by omega), List.replicate_succ]

/-- Claim C1 (amended): for a recognized mode with the unit off,
`set_mode` issues exactly one `set_power_on()`, after the polls and
only once the cached mode first equals the requested mode — but only
when that first confirmation arrives at a check with retries
remaining (within the first 29 polls, `j ≤ 29`).  When the cache
never matches at checks `0..29` the loop issues its 30 polls and
gives up without powering on — even though the check after the 30th
poll is still performed and may see the requested mode (see the
counterexample). -/
theorem set_mode_power_on_iff_early_confirm (m : String) (o : Nat → Option String)
    (hm : m ∈ MODES) :
    (∀ j, j ≤ 29 → o j = some m → (∀ i, i < j → o i ≠ some m) →
      set_mode_cmds m false o
        = set_value_cmd "MODE" m :: (List.replicate j get_mode_cmd ++ [set_power_on_cmd])) ∧
    ((∀ j, j ≤ 29 → o j ≠ some m) →
      set_mode_cmds m false o = set_value_cmd "MODE" m :: List.replicate 30 get_mode_cmd) := by
  constructor
  · intro j hj hconf hfirst
    simp only [set_mode_cmds, if_pos hm, Bool.false_eq_true, if_false]
    rw [mode_loop_confirm m o j hconf hfirst 30 0 (by omega) (by omega) hj]
    simp
  · intro hnone
    simp only [set_mode_cmds, if_pos hm, Bool.false_eq_true, if_false]
    rw [mode_loop_exhaust m o hnone 30 0 (by omega)]
    simp

/-- Witness for C1's amended theorem: confirmation on the 5th reply
gives the mode SET, five polls, then exactly one power-on. -/
theorem set_mode_power_on_iff_early_confirm_witness :
    set_mode_cmds "COOL" false (fun j => if j = 5 then some "COOL" else some "HEAT")
      = set_value_cmd "MODE" "COOL" :: (List.replicate 5 get_mode_cmd ++ [set_power_on_cmd]) := by
  refine (set_mode_power_on_iff_early_confirm "COOL" _ (by decide)).1 5 (by omega) (by simp) ?_
  intro i hi
  simp [show i ≠ 5 from by omega]

/-- Claim C9 (confirmed): a `connect()` call made while the status is
already `Connecting` or `Authenticated` schedules no new socket
connection and no background task — in particular it cannot trigger a
second `query_initial_state` startup sequence, which is only ever
scheduled by `connection_made` after a fresh socket open.  (In the
`Connecting` branch the call may close a dying transport, notify
subscribers, or raise on a still-`None` transport, but it never opens
a duplicate connection.) -/
theorem connect_noop_when_active (status : ConnStatus) (hasIpPort : Bool)
    (transport : Option Bool)
    (h : status = .connecting ∨ status = .authenticated) :
    (connect status hasIpPort transport).socketOpens = 0 ∧
    (connect status hasIpPort transport).tasksScheduled = [] := by
  rcases h with h | h <;> subst h
  · rcases transport with _ | closing
    · simp [connect]
    · cases closing <;> simp [connect]
  · simp [connect]

/-- Witness for C9 at the `Authenticated` status. -/
theorem connect_noop_when_active_witness :
    (connect .authenticated true none).socketOpens = 0 ∧
    (connect .authenticated true none).tasksScheduled = [] :=
  connect_noop_when_active .authenticated true none (Or.inr rfl)

/-- Helper: splitting once on `sep` around the first separator. -/
theorem splitOnceChars_append (sep : Char) (l r : List Char) (h : sep ∉ l) :
    splitOnceChars sep (l ++ sep :: r) = (l, some r) := by
  induction l with
  | nil => simp [splitOnceChars]
  | cons c cs ih =>
    have hc : ¬ c = sep := by
      intro e
      exact h (e ▸ List.mem_cons_self c cs)
    have ih2 := ih (fun hm => h (List.mem_cons_of_mem c hm))
    simp [splitOnceChars, hc, ih2]

/-- Helper: `str.split(sep)` of `l ++ sep :: r` starts with field `l`
when `l` is separator-free. -/
theorem splitChars_append (sep : Char) (l r : List Char) (h : sep ∉ l) :
    splitChars sep (l ++ sep :: r) = l :: splitChars sep r := by
  induction l with
  | nil => simp [splitChars]
  | cons c cs ih =>
    have hc : ¬ c = sep := by
      intro e
      exact h (e ▸ List.mem_cons_self c cs)
    have ih2 := ih (fun hm => h (List.mem_cons_of_mem c hm))
    simp only [List.cons_append, splitChars, hc, if_false]
    rw [List.append_eq, ih2]

/-- Helper: an `ID:` line splits into command token `ID` and its
argument string. -/
theorem pySplit1_id_line (args : String) :
    pySplit1 ("ID:" ++ args) ':' = ["ID", args] := by
  have hdata : ("ID:" ++ args).data = "ID".data ++ ':' :: args.data := by
    rw [String.data_append]
    rfl
  rw [pySplit1, hdata, splitOnceChars_append ':' "ID".data args.data (by decide)]

/-- Claim C10 (confirmed): an `ID:<args>` line whose argument splits
into fewer than 6 comma-separated fields still transitions the
connection to `Authenticated` (`is_connected` becomes true) while
model, MAC, firmware version and RSSI are left untouched — so a
caller can observe `is_connected` with `device_mac_address` absent. -/
theorem short_id_authenticates_without_identity (st : BoxState) (args : String)
    (h : (pySplit args ',').length < 6) :
    is_connected (processLine st ("ID:" ++ args)).1 = true ∧
    (processLine st ("ID:" ++ args)).1.model = st.model ∧
    (processLine st ("ID:" ++ args)).1.mac = st.mac ∧
    (processLine st ("ID:" ++ args)).1.firmversion = st.firmversion ∧
    (processLine st ("ID:" ++ args)).1.rssi = st.rssi := by
  have hid : parse_id_received st args = st := by
    rw [parse_id_received, dif_neg (by omega)]
  simp only [processLine, pySplit1_id_line]
  simp [hid, is_connected]
  decide

/-- Witness for C10: `ID:a,b,c` from the initial state gives
`is_connected` with the MAC still unset. -/
theorem short_id_authenticates_without_identity_witness :
    is_connected (processLine initialState ("ID:" ++ "a,b,c")).1 = true ∧
    (processLine initialState ("ID:" ++ "a,b,c")).1.mac = initialState.mac := by
  have h := short_id_authenticates_without_identity initialState "a,b,c" (by decide)
  exact ⟨h.1, h.2.2.1⟩

/-- Helper: reading a dict after a write. -/
theorem dictGet_dictSet (d : List (String × Option String)) (k : String)
    (v : Option String) (k' : String) :
    dictGet (dictSet d k v) k' = if k = k' then some v else dictGet d k' := by
  induction d with
  | nil => simp [dictSet, dictGet]
  | cons p rest ih =>
    rcases p with ⟨a, b⟩
    by_cases hak : a = k
    · subst hak
      simp only [dictSet, if_pos rfl, dictGet]
      by_cases h2 : a = k' <;> simp [h2]
    · simp only [dictSet, if_neg hak, dictGet, ih]
      by_cases hak' : a = k'
      · subst hak'
        simp [Ne.symm hak]
      · simp [hak']

/-- Helper: `_parse_id_received` never touches the device cache. -/
theorem parse_id_received_device (st : BoxState) (args : String) :
    (parse_id_received st args).device = st.device := by
  rw [parse_id_received]
  split <;> rfl

/-- Helper: the non-setpoint LIMITS branches never touch the device
cache. -/
theorem limitsOther_device (st : BoxState) (c : String) (values : List String) :
    (limitsOther st c values).device = st.device := by
  rw [limitsOther]
  repeat' split
  all_goals rfl

/-- Helper: `_parse_limits_received` never touches the device cache. -/
theorem parse_limits_received_device (st : BoxState) (args : String) :
    (parse_limits_received st args).1.device = st.device := by
  rw [parse_limits_received]
  repeat' (first | rfl | simp only [limitsOther_device] | split)

/-- Helper: a successful `_parse_change_received` only overwrites or
adds one key. -/
theorem parse_change_received_device (st st1 : BoxState) (args : String)
    (h : parse_change_received st args = some st1) :
    ∃ f v, st1.device = dictSet st.device f v := by
  rw [parse_change_received] at h
  rcases hsp : pySplit args ',' with _ | ⟨f, _ | ⟨v, tl⟩⟩ <;> rw [hsp] at h
  · simp at h
  · simp at h
  · refine ⟨f, if v ∈ NULL_VALUES then none else some v, ?_⟩
    injection h with h
    rw [← h]

/-- Helper: processing one received line never removes a device-cache
key. -/
theorem processLine_device_isSome (st : BoxState) (line k : String)
    (h : (dictGet st.device k).isSome = true) :
    (dictGet (processLine st line).1.device k).isSome = true := by
  rw [processLine]
  rcases hsp : pySplit1 line ':' with _ | ⟨cmd, _ | ⟨args, tl⟩⟩
  · exact h
  · exact h
  · simp only
    split_ifs with h1 h2 h3
    · simpa [parse_id_received_device] using h
    · rcases hpc : parse_change_received st args with _ | st1
      · exact h
      · simp only
        obtain ⟨f, v, hdev⟩ := parse_change_received_device st st1 args hpc
        rw [hdev, dictGet_dictSet]
        split
        · rfl
        · exact h
    · rcases hpl : parse_limits_received st args with ⟨st1, ok⟩
      have hd : st1.device = st.device := by
        have := parse_limits_received_device st args
        rw [hpl] at this
        exact this
      cases ok <;> simp only <;> rw [hd] <;> exact h
    · exact h

/-- Helper: the receive loop never removes a device-cache key, even
when a line raises mid-chunk. -/
theorem processLinesAux_device_isSome (lines : List String) :
    ∀ st changed k, (dictGet st.device k).isSome = true →
      (dictGet (processLinesAux st changed lines).1.device k).isSome = true := by
  induction lines with
  | nil => intro st changed k h; exact h
  | cons line rest ih =>
    intro st changed k h
    rw [processLinesAux]
    rcases hpl : processLine st line with ⟨stA, cA, okA⟩
    have hA : (dictGet stA.device k).isSome = true := by
      have := processLine_device_isSome st line k h
      rw [hpl] at this
      exact this
    cases okA
    · exact hA
    · exact ih stA (changed || cA) k hA

/-- Helper: one received chunk never removes a device-cache key. -/
theorem data_received_device_isSome (st : BoxState) (chunk k : String)
    (h : (dictGet st.device k).isSome = true) :
    (dictGet (data_received st chunk).1.device k).isSome = true := by
  rw [data_received]
  rcases hpa : processLinesAux st false (pySplitlines chunk) with ⟨st1, c1, ok⟩
  have h1 : (dictGet st1.device k).isSome = true := by
    have := processLinesAux_device_isSome (pySplitlines chunk) st false k h
    rw [hpa] at this
    exact this
  cases ok <;> exact h1

/-- Helper: no sequence of received chunks removes a device-cache
key. -/
theorem processChunks_device_isSome (chunks : List String) :
    ∀ st k, (dictGet st.device k).isSome = true →
      (dictGet (processChunks st chunks).device k).isSome = true := by
  induction chunks with
  | nil => intro st k h; exact h
  | cons c rest ih =>
    intro st k h
    exact ih (data_received st c).1 k (data_received_device_isSome st c k h)

/-- Helper: a `CHN,1:` line splits into command token `CHN,1` and its
argument string. -/
theorem pySplit1_chn_line (rest : String) :
    pySplit1 ("CHN,1:" ++ rest) ':' = ["CHN,1", rest] := by
  have hdata : ("CHN,1:" ++ rest).data = "CHN,1".data ++ ':' :: rest.data := by
    rw [String.data_append]
    rfl
  rw [pySplit1, hdata, splitOnceChars_append ':' "CHN,1".data rest.data (by decide)]

/-- Helper: the first comma-separated field of `F ++ "," ++ v` is `F`
when `F` is comma-free. -/
theorem pySplit_first_field (F v : String) (hF : ',' ∉ F.data) :
    pySplit (F ++ "," ++ v) ',' = F :: pySplit v ',' := by
  have hdata : (F ++ "," ++ v).data = F.data ++ ',' :: v.data := by
    rw [String.data_append, String.data_append]
    simp
  rw [pySplit, hdata, splitChars_append ',' F.data v.data hF, pySplit]
  rfl

/-- Claim C6 (confirmed): across every sequence of processed chunks a
device-cache key once observed is never removed, only overwritten;
and a `CHN,1` line carrying a sentinel value (`32768`/`-32768`) for
function `F` stores Python `None` under `F` (the key is present,
`dictGet` = `some none`), after which the string accessor and the
tenths-of-degree accessor for `F` both return absent — never the
literal sentinel. -/
theorem cache_keys_persist_and_sentinel_absent :
    (∀ (st : BoxState) (chunks : List String) (k : String),
        (dictGet st.device k).isSome = true →
        (dictGet (processChunks st chunks).device k).isSome = true) ∧
    (∀ (st : BoxState) (F v : String), v ∈ NULL_VALUES → ',' ∉ F.data →
        dictGet (processLine st ("CHN,1:" ++ F ++ "," ++ v)).1.device F = some none ∧
        stringAccessor (processLine st ("CHN,1:" ++ F ++ "," ++ v)).1 F = none ∧
        tenthsAccessor (processLine st ("CHN,1:" ++ F ++ "," ++ v)).1 F = none) := by
  constructor
  · intro st chunks k h
    exact processChunks_device_isSome chunks st k h
  · intro st F v hv hF
    have hv2 : pySplit v ',' = [v] := by
      rcases (by simpa [NULL_VALUES] using hv : v = "-32768" ∨ v = "32768") with rfl | rfl <;> decide
    have hline : ("CHN,1:" ++ F ++ "," ++ v) = "CHN,1:" ++ (F ++ "," ++ v) := by
      simp [String.append_assoc]
    have hst : processLine st ("CHN,1:" ++ F ++ "," ++ v)
        = ({ st with device := dictSet st.device F none }, true, true) := by
      rw [hline]
      simp only [processLine, pySplit1_chn_line, parse_change_received,
        pySplit_first_field F v hF, hv2]
      simp [hv]
    rw [hst]
    refine ⟨?_, ?_, ?_⟩
    · rw [dictGet_dictSet]
      simp
    · rw [stringAccessor]
      show Option.join (dictGet (dictSet st.device F none) F) = none
      rw [dictGet_dictSet]
      simp
    · rw [tenthsAccessor]
      show (match Option.join (dictGet (dictSet st.device F none) F) with
            | none => none
            | some s => if s = "" then none else (pyInt s).map fun n => (n : ℚ) / 10)
          = none
      rw [dictGet_dictSet]
      simp

/-- Witness for C6: a pre-observed `MODE` key survives a chunk, and a
sentinel `AMBTEMP` reads back as absent. -/
theorem cache_keys_persist_and_sentinel_absent_witness :
    (dictGet (processChunks { initialState with device := [("MODE", some "COOL")] }
        ["CHN,1:ONOFF,ON\r\n"]).device "MODE").isSome = true ∧
    stringAccessor (processLine initialState ("CHN,1:" ++ "AMBTEMP" ++ "," ++ "32768")).1
        "AMBTEMP" = none := by
  constructor
  · exact cache_keys_persist_and_sentinel_absent.1 _ _ _ (by decide)
  · exact (cache_keys_persist_and_sentinel_absent.2 initialState "AMBTEMP" "32768"
      (by decide) (by decide)).2.1

/-- Helper: a line handler that completes without raising reports
`statusChanged` exactly when the line is a CHN/LIMITS line. -/
theorem processLine_changed_eq (st : BoxState) (line : String) (st1 : BoxState) (c : Bool)
    (h : processLine st line = (st1, c, true)) : c = isUpdateLine line := by
  rw [processLine] at h
  rw [isUpdateLine]
  rcases hsp : pySplit1 line ':' with _ | ⟨cmd, _ | ⟨args, tl⟩⟩ <;> rw [hsp] at h
  · injection h with h1 h2
    injection h2 with h2 h3
    exact h2.symm
  · injection h with h1 h2
    injection h2 with h2 h3
    exact h2.symm
  · simp only at h
    split_ifs at h with h1 h2 h3
    · injection h with ha hb
      injection hb with hb hc
      subst h1
      simp [← hb]
    · subst h2
      rcases hpc : parse_change_received st args with _ | stA <;> rw [hpc] at h
      · injection h with ha hb
        injection hb with hb hc
        cases hc
      · injection h with ha hb
        injection hb with hb hc
        simp [← hb]
    · subst h3
      rcases hpl : parse_limits_received st args with ⟨stA, ok⟩
      rw [hpl] at h
      cases ok
      · simp only at h
        injection h with ha hb
        injection hb with hb hc
        cases hc
      · simp only at h
        injection h with ha hb
        injection hb with hb hc
        simp [← hb]
    · injection h with ha hb
      injection hb with hb hc
      simp [← hb, h1, h2, h3]

/-- Helper: when the whole loop completes, the accumulated
`statusChanged` is the disjunction over the chunk's lines. -/
theorem processLinesAux_changed (lines : List String) :
    ∀ st changed st1 c1, processLinesAux st changed lines = (st1, c1, true) →
      c1 = (changed || lines.any isUpdateLine) := by
  induction lines with
  | nil =>
    intro st changed st1 c1 h
    injection h with h1 h2
    injection h2 with h2 h3
    simp [← h2]
  | cons line rest ih =>
    intro st changed st1 c1 h
    rw [processLinesAux] at h
    rcases hpl : processLine st line with ⟨stA, cA, okA⟩
    rw [hpl] at h
    cases okA
    · simp only at h
      injection h with h1 h2
      injection h2 with h2 h3
      cases h3
    · simp only at h
      have hc := processLine_changed_eq st line stA cA hpl
      rw [ih stA (changed || cA) st1 c1 h, hc]
      simp [Bool.or_assoc]

/-- Claim C7 (amended): provided processing the chunk completes
without raising, the update notification fires exactly once when at
least one line of the chunk is a `CHN`/`LIMITS` update and zero times
otherwise — never once per line.  (Without that proviso the claim
fails: a malformed `CHN,1` line raising mid-chunk aborts processing
before the single end-of-chunk notification, see the
counterexample.) -/
theorem chunk_notification_batched (st : BoxState) (chunk : String)
    (hok : (data_received st chunk).2.2 = true) :
    (data_received st chunk).2.1
      = if (pySplitlines chunk).any isUpdateLine then 1 else 0 := by
  rw [data_received] at hok ⊢
  rcases hpa : processLinesAux st false (pySplitlines chunk) with ⟨st1, c1, ok⟩
  rw [hpa] at hok
  cases ok
  · cases hok
  · have hc := processLinesAux_changed (pySplitlines chunk) st false st1 c1 hpa
    simp only at hc ⊢
    rw [hc]
    simp

/-- Witness for C7's amended theorem on a single-update chunk. -/
theorem chunk_notification_batched_witness :
    (data_received initialState "CHN,1:ONOFF,ON\r\n").2.2 = true ∧
    (data_received initialState "CHN,1:ONOFF,ON\r\n").2.1
      = if (pySplitlines "CHN,1:ONOFF,ON\r\n").any isUpdateLine then 1 else 0 :=
  ⟨by decide, chunk_notification_batched initialState "CHN,1:ONOFF,ON\r\n" (by decide)⟩

end IntesisBox
